import Mathlib

/-!
Verification development for the webauthn-test repository.

The WebAuthn ceremony engine of the repository is embedded shallowly:

* `src/src/lib/webauthn.ts` — the current ceremony engine
  (`verifyPasskeyRegistration`, `verifyPasskeyAuthentication`,
  `generatePasskeyAuthenticationOptions`, ...);
* `src/unnamed/part_000` — a legacy copy of the engine
  (modelled as the functions suffixed `0`) followed by
  `database-server.ts` with the SQLite schema and prepared statements,
  modelled as pure operations over list-backed tables;
* the Next.js route handlers under `src/src/app/api/passkeys/` modelled as
  state-passing functions over the database value.

Machine-level details that do not influence the verified properties are
abstracted as documented at each definition: cryptographic signature checks
become an explicit comparison against the key a response is signed under,
random challenge/session-id generation becomes an explicit parameter, and
`CURRENT_TIMESTAMP` becomes an explicit `now : Nat` parameter.
-/

namespace WebauthnTest

/-- Error taxonomy of the verification flows (spec §7).  `DuplicateCredential`
and `DuplicateSessionId` are the SQLite UNIQUE / PRIMARY KEY violations raised
by the plain `INSERT` statements in `database-server.ts`. -/
inductive WError where
  | ChallengeMismatch
  | OriginMismatch
  | RpIdMismatch
  | InvalidSignature
  | CounterRegression
  | DuplicateCredential
  | CredentialNotFound
  | DuplicateSessionId
deriving Repr, DecidableEq

/-- Character of the base64url alphabet for a 6-bit value
(`A–Z`, `a–z`, `0–9`, `-`, `_`). -/
def b64Char (n : Nat) : Char :=
  if n < 26 then Char.ofNat (65 + n)
  else if n < 52 then Char.ofNat (97 + (n - 26))
  else if n < 62 then Char.ofNat (48 + (n - 52))
  else if n = 62 then '-' else '_'

/-- Unpadded base64url encoding of a byte list, as produced by Node's
`Buffer.prototype.toString('base64url')`: groups of three bytes become four
characters, a trailing group of one or two bytes becomes two or three. -/
def base64urlEncodeAux : List Nat → List Char
  | [] => []
  | [b1] => [b64Char (b1 / 4), b64Char (b1 % 4 * 16)]
  | [b1, b2] => [b64Char (b1 / 4), b64Char (b1 % 4 * 16 + b2 / 16), b64Char (b2 % 16 * 4)]
  | b1 :: b2 :: b3 :: rest =>
      b64Char (b1 / 4) :: b64Char (b1 % 4 * 16 + b2 / 16) ::
      b64Char (b2 % 16 * 4 + b3 / 64) :: b64Char (b3 % 64) :: base64urlEncodeAux rest

/-- String form of the base64url encoding. -/
def base64urlEncode (bs : List Nat) : String :=
  String.mk (base64urlEncodeAux bs)

/-- Bytes of a string under Node's `Buffer.from(s)` (UTF-8).  Every string this
development feeds to it consists of base64url-alphabet characters, i.e. ASCII,
where the UTF-8 bytes coincide with the character code points. -/
def asciiBytes (s : String) : List Nat :=
  s.data.map Char.toNat

/-- Row of the `users` table (`database-server.ts`); the password hash is
irrelevant to the ceremony engine and omitted. -/
structure DbUser where
  id : Nat
  username : String
deriving Repr, DecidableEq

/-- Row of the `passkeys` table (`database-server.ts`): credential id stored as
text (base64url), public key as text, `counter INTEGER`, `last_used_at`
timestamp. -/
structure DbPasskey where
  userId : Nat
  credentialId : String
  publicKey : String
  counter : Nat
  deviceType : String
  backedUp : Bool
  transports : Option String
  lastUsedAt : Option Nat
deriving Repr, DecidableEq

/-- Row of the `webauthn_sessions` table: `id TEXT PRIMARY KEY`, owning user,
challenge text, `expires_at`. -/
structure DbSession where
  id : String
  userId : Nat
  challenge : String
  expiresAt : Nat
deriving Repr, DecidableEq

/-- The SQLite database state: the three tables used by the ceremony engine. -/
structure Db where
  users : List DbUser
  passkeys : List DbPasskey
  sessions : List DbSession
deriving Repr, DecidableEq

/-- Prepared statement `getUserByUsername`:
`SELECT * FROM users WHERE username = ?`. -/
def getUserByUsername (users : List DbUser) (uname : String) : Option DbUser :=
  users.find? (fun u => u.username == uname)

/-- Prepared statement `getPasskeysByUserId`:
`SELECT * FROM passkeys WHERE user_id = ? ORDER BY created_at DESC`.
Rows are kept in insertion order, so descending creation time is the
reversed filter. -/
def getPasskeysByUserId (passkeys : List DbPasskey) (uid : Nat) : List DbPasskey :=
  (passkeys.filter (fun p => p.userId == uid)).reverse

/-- Prepared statement `getPasskeyByCredentialId`:
`SELECT p.*, u.username FROM passkeys p JOIN users u ON p.user_id = u.id
WHERE p.credential_id = ?`.  The join is modelled by returning the owning
user's name next to the row. -/
def getPasskeyByCredentialId (db : Db) (cid : String) : Option (DbPasskey × String) :=
  (db.passkeys.find? (fun p => p.credentialId == cid)).bind fun p =>
    (db.users.find? (fun u => u.id == p.userId)).map fun u => (p, u.username)

/-- Prepared statement `createPasskey`: a plain `INSERT INTO passkeys`.
`credential_id TEXT UNIQUE NOT NULL` makes the insert throw on a duplicate
credential id, modelled as `WError.DuplicateCredential` with the table
unchanged. -/
def createPasskey (passkeys : List DbPasskey) (p : DbPasskey) :
    Except WError Unit × List DbPasskey :=
  if passkeys.any (fun q => q.credentialId == p.credentialId) then
    (.error .DuplicateCredential, passkeys)
  else
    (.ok (), passkeys ++ [p])

/-- Prepared statement `updatePasskeyCounter`:
`UPDATE passkeys SET counter = ?, last_used_at = CURRENT_TIMESTAMP
WHERE credential_id = ?`. -/
def updatePasskeyCounter (passkeys : List DbPasskey) (newCounter : Nat)
    (cid : String) (now : Nat) : List DbPasskey :=
  passkeys.map fun p =>
    if p.credentialId == cid then
      { p with counter := newCounter, lastUsedAt := some now }
    else p

/-- Prepared statement `createSession`: a plain
`INSERT INTO webauthn_sessions (id, user_id, challenge, expires_at)`.
`id TEXT PRIMARY KEY` makes the insert throw on a duplicate session id,
modelled as `WError.DuplicateSessionId` with the table unchanged. -/
def createSession (sessions : List DbSession) (s : DbSession) :
    Except WError Unit × List DbSession :=
  if sessions.any (fun t => t.id == s.id) then
    (.error .DuplicateSessionId, sessions)
  else
    (.ok (), sessions ++ [s])

/-- Prepared statement `getSession`:
`SELECT s.*, u.username FROM webauthn_sessions s JOIN users u ON
s.user_id = u.id WHERE s.id = ? AND s.expires_at > CURRENT_TIMESTAMP`. -/
def getSession (db : Db) (sid : String) (now : Nat) : Option (DbSession × String) :=
  (db.sessions.find? (fun s => s.id == sid && decide (now < s.expiresAt))).bind fun s =>
    (db.users.find? (fun u => u.id == s.userId)).map fun u => (s, u.username)

/-- Prepared statement `deleteSession`:
`DELETE FROM webauthn_sessions WHERE id = ?`. -/
def deleteSession (sessions : List DbSession) (sid : String) : List DbSession :=
  sessions.filter (fun s => !(s.id == sid))

/-- Relying-party configuration read from the environment by both engine
copies (`RP_ID`, `ORIGIN`).  Modelled as an explicit parameter since the
values are deployment-dependent. -/
structure Config where
  rpId : String
  origin : String
deriving Repr, DecidableEq

/-- Development defaults of `src/src/lib/webauthn.ts`
(`localhost`, `http://localhost:3200`). -/
def devConfig : Config := ⟨"localhost", "http://localhost:3200"⟩

/-- Development defaults of the legacy engine in `src/unnamed/part_000`
(`localhost`, `http://localhost:3000`). -/
def devConfig0 : Config := ⟨"localhost", "http://localhost:3000"⟩

/-- Authentication response body (`AuthenticationResponseJSON`) as far as the
verifier inspects it.  `challenge`, `origin` and `rpId` are the values carried
inside `clientDataJSON` / the authenticator data; `counter` is the signature
counter reported in the authenticator data.  The cryptographic assertion
signature is abstracted: `signedWith` is the stored public key the signature
verifies under, so the signature check becomes a comparison with the
credential's key. -/
structure Assertion where
  id : String
  challenge : String
  origin : String
  rpId : String
  signedWith : String
  counter : Nat
deriving Repr, DecidableEq

/-- The `authenticationInfo` part of a library verification result. -/
structure AuthInfo where
  newCounter : Nat
deriving Repr, DecidableEq

/-- Result shape of `verifyAuthenticationResponse`. -/
structure AuthVerification where
  verified : Bool
  reason : Option WError
  info : Option AuthInfo
deriving Repr, DecidableEq

/-- Modelled from the spec: `@simplewebauthn/server`'s
`verifyAuthenticationResponse` is not part of the repository sources, so its
checks are taken from spec §4.3 `verifyAuthentication` steps 2–4 and §7:
challenge, origin and RP-ID must match byte-exactly, the assertion signature
must verify under the stored public key, and when the stored counter is
nonzero a reported counter `≤` the stored counter is a `CounterRegression`;
each rejection yields `verified = false` with its diagnostic reason, success
yields the reported counter as `newCounter`. -/
def verifyAuthenticationResponse (resp : Assertion)
    (expectedChallenge expectedOrigin expectedRPID : String)
    (credPublicKey : String) (credCounter : Nat) : AuthVerification :=
  if resp.challenge != expectedChallenge then ⟨false, some .ChallengeMismatch, none⟩
  else if resp.origin != expectedOrigin then ⟨false, some .OriginMismatch, none⟩
  else if resp.rpId != expectedRPID then ⟨false, some .RpIdMismatch, none⟩
  else if resp.signedWith != credPublicKey then ⟨false, some .InvalidSignature, none⟩
  else if credCounter != 0 && decide (resp.counter ≤ credCounter) then
    ⟨false, some .CounterRegression, none⟩
  else ⟨true, none, some ⟨resp.counter⟩⟩

/-- Result of `verifyPasskeyAuthentication` (`debugLogs` omitted). -/
structure AuthOutcome where
  verified : Bool
  userId : Nat
  username : String
  reason : Option WError
deriving Repr, DecidableEq

/-- `verifyPasskeyAuthentication` of `src/src/lib/webauthn.ts`: look the
credential up by the client-declared `body.id`; throw `Passkey not found`
(modelled as `Except.error CredentialNotFound`) when absent; verify the
response against the stored key and counter; update the stored counter to the
reported `newCounter` only when verification succeeded; always answer with the
stored row's `user_id` and `username`.  The database travels alongside the
result. -/
def verifyPasskeyAuthentication (cfg : Config) (body : Assertion)
    (expectedChallenge : String) (db : Db) (now : Nat) :
    Except WError AuthOutcome × Db :=
  let credentialId := body.id
  match getPasskeyByCredentialId db credentialId with
  | none => (.error .CredentialNotFound, db)
  | some (passkey, uname) =>
    let verification :=
      verifyAuthenticationResponse body expectedChallenge cfg.origin cfg.rpId
        passkey.publicKey passkey.counter
    let db' :=
      if verification.verified then
        match verification.info with
        | some info =>
          { db with passkeys := updatePasskeyCounter db.passkeys info.newCounter credentialId now }
        | none => db
      else db
    (.ok ⟨verification.verified, passkey.userId, uname, verification.reason⟩, db')

/-- Registration response body (`RegistrationResponseJSON`) as far as the
verifier inspects it.  `id` is the client-declared base64url credential id;
`credIdRaw` is the raw credential id byte string inside the attestation's
authenticator data; `attOk` abstracts the validity of the attestation
statement over the signed bytes; `counter` is the initial signature counter in
the authenticator data; `transports` is kept in its serialized
(`JSON.stringify`) form. -/
structure RegistrationBody where
  id : String
  credIdRaw : List Nat
  challenge : String
  origin : String
  rpId : String
  attOk : Bool
  publicKey : String
  counter : Nat
  aaguid : String
  backedUp : Bool
  transports : Option String
deriving Repr, DecidableEq

/-- The `registrationInfo` part of a library verification result.  In the
library version in use, `credential.id` is the base64url string encoding of
the raw credential id bytes extracted from the attestation. -/
structure RegInfo where
  credentialId : String
  publicKey : String
  counter : Nat
  aaguid : String
  backedUp : Bool
deriving Repr, DecidableEq

/-- Result shape of `verifyRegistrationResponse`. -/
structure RegVerification where
  verified : Bool
  reason : Option WError
  info : Option RegInfo
deriving Repr, DecidableEq

/-- Modelled from the spec: `@simplewebauthn/server`'s
`verifyRegistrationResponse` is not part of the repository sources, so its
checks are taken from spec §4.3 `verifyRegistration` steps 2–5: challenge,
origin and RP-ID must match, the attestation must be valid over the signed
bytes; on success the credential id, public key, initial counter, AAGUID and
backup flag are extracted from the attestation. -/
def verifyRegistrationResponse (resp : RegistrationBody)
    (expectedChallenge expectedOrigin expectedRPID : String) : RegVerification :=
  if resp.challenge != expectedChallenge then ⟨false, some .ChallengeMismatch, none⟩
  else if resp.origin != expectedOrigin then ⟨false, some .OriginMismatch, none⟩
  else if resp.rpId != expectedRPID then ⟨false, some .RpIdMismatch, none⟩
  else if !resp.attOk then ⟨false, some .InvalidSignature, none⟩
  else ⟨true, none,
    some ⟨base64urlEncode resp.credIdRaw, resp.publicKey, resp.counter,
          resp.aaguid, resp.backedUp⟩⟩

/-- Result of `verifyPasskeyRegistration` (`debugLogs` omitted). -/
structure RegOutcome where
  verified : Bool
  credentialId : String
deriving Repr, DecidableEq

/-- The all-zero AAGUID, mapped to device type `platform` by both engines. -/
def zeroAaguid : String := "00000000-0000-0000-0000-000000000000"

/-- `verifyPasskeyRegistration` of `src/src/lib/webauthn.ts`: verify the
response; on success persist a new passkey whose credential id is the
client-declared `body.id`, whose counter is the attested initial counter and
whose device type is derived from the AAGUID; a duplicate-id insert throws and
is rethrown (modelled as `Except.error` with the database unchanged). -/
def verifyPasskeyRegistration (cfg : Config) (body : RegistrationBody)
    (expectedChallenge : String) (userId : Nat) (db : Db) :
    Except WError RegOutcome × Db :=
  let verification := verifyRegistrationResponse body expectedChallenge cfg.origin cfg.rpId
  if verification.verified then
    match verification.info with
    | some info =>
      let credentialId := body.id
      let deviceType := if info.aaguid == zeroAaguid then "platform" else "cross-platform"
      let r := createPasskey db.passkeys
        { userId := userId, credentialId := credentialId, publicKey := info.publicKey,
          counter := info.counter, deviceType := deviceType, backedUp := info.backedUp,
          transports := body.transports, lastUsedAt := none }
      match r.1 with
      | .error e => (.error e, db)
      | .ok () => (.ok ⟨true, body.id⟩, { db with passkeys := r.2 })
    | none => (.ok ⟨verification.verified, ""⟩, db)
  else (.ok ⟨verification.verified, ""⟩, db)

/-- `verifyPasskeyRegistration` of the legacy engine in `src/unnamed/part_000`:
the persisted credential id is `Buffer.from(credential.id).toString('base64url')`
— the base64url re-encoding of the UTF-8 bytes of the library's already
base64url-encoded credential id — and the persisted counter is the literal `0`
(source comment: counter starts at 0 for new passkeys). -/
def verifyPasskeyRegistration0 (cfg : Config) (body : RegistrationBody)
    (expectedChallenge : String) (userId : Nat) (db : Db) :
    Except WError RegOutcome × Db :=
  let verification := verifyRegistrationResponse body expectedChallenge cfg.origin cfg.rpId
  if verification.verified then
    match verification.info with
    | some info =>
      let credentialId := base64urlEncode (asciiBytes info.credentialId)
      let deviceType := if info.aaguid == zeroAaguid then "platform" else "cross-platform"
      let r := createPasskey db.passkeys
        { userId := userId, credentialId := credentialId, publicKey := info.publicKey,
          counter := 0, deviceType := deviceType, backedUp := info.backedUp,
          transports := body.transports, lastUsedAt := none }
      match r.1 with
      | .error e => (.error e, db)
      | .ok () => (.ok ⟨true, credentialId⟩, { db with passkeys := r.2 })
    | none => (.ok ⟨verification.verified, ""⟩, db)
  else (.ok ⟨verification.verified, ""⟩, db)

/-- Allow-list entry (`allowCredentials`) of authentication options; the
stored serialized transports string travels through unchanged. -/
structure AllowCredential where
  id : String
  transports : Option String
deriving Repr, DecidableEq

/-- Authentication options as returned by
`generatePasskeyAuthenticationOptions` (fields the claims mention).
`allowCredentials = none` is the absent field of the wire format. -/
structure AuthOptions where
  rpId : String
  allowCredentials : Option (List AllowCredential)
  challenge : String
deriving Repr, DecidableEq

/-- `generatePasskeyAuthenticationOptions` of `src/src/lib/webauthn.ts`:
with a truthy username that resolves to a user, the allow-list is that user's
passkeys (id + transports); otherwise it stays empty; an empty allow-list is
passed to the library as `undefined`, i.e. the field is absent.  The fresh
random challenge produced by the library is an explicit parameter. -/
def generatePasskeyAuthenticationOptions (cfg : Config) (username : Option String)
    (db : Db) (freshChallenge : String) : AuthOptions :=
  let allowCredentials : List AllowCredential :=
    match username with
    | none => []
    | some uname =>
      if uname == "" then []
      else
        match getUserByUsername db.users uname with
        | none => []
        | some u =>
          (getPasskeysByUserId db.passkeys u.id).map fun p => ⟨p.credentialId, p.transports⟩
  ⟨cfg.rpId, if allowCredentials.length > 0 then some allowCredentials else none,
   freshChallenge⟩

/-- Credential ids named by an options value's allow-list; an absent list
restricts nothing, like an empty one. -/
def allowedIds (o : AuthOptions) : List String :=
  match o.allowCredentials with
  | none => []
  | some l => l.map (fun c => c.id)

/-- Registration options as returned by
`generatePasskeyRegistrationOptions` (fields the claims mention). -/
structure RegOptions where
  excludeIds : List String
  challenge : String
deriving Repr, DecidableEq

/-- `generatePasskeyRegistrationOptions` of `src/src/lib/webauthn.ts`: the
exclusion list is built from the user's existing passkeys; the fresh random
challenge produced by the library is an explicit parameter. -/
def generatePasskeyRegistrationOptions (userId : Nat) (db : Db)
    (freshChallenge : String) : RegOptions :=
  ⟨(getPasskeysByUserId db.passkeys userId).map (fun p => p.credentialId),
   freshChallenge⟩

/-- Response of the `POST /api/passkeys/register/options` route. -/
inductive OptionsResp where
  | notAuthenticated
  | invalidSession
  | usernameRequired
  | ok (challenge : String) (excludeIds : List String)
  | serverError (e : WError)
deriving Repr, DecidableEq

/-- `POST` of `src/src/app/api/passkeys/register/options/route.ts`: require a
session cookie and a live login session; require a truthy username; generate
options; then `INSERT` the challenge under the id `challenge-` + session id
with a five-minute expiry.  A failed insert (duplicate primary key) throws and
the catch answers 500 with the database unchanged. -/
def regOptionsPOST (cookie : Option String) (username : Option String)
    (freshChallenge : String) (db : Db) (now : Nat) : OptionsResp × Db :=
  match cookie with
  | none => (.notAuthenticated, db)
  | some sid =>
    match getSession db sid now with
    | none => (.invalidSession, db)
    | some (session, _) =>
      match username with
      | none => (.usernameRequired, db)
      | some uname =>
        if uname == "" then (.usernameRequired, db)
        else
          let opts := generatePasskeyRegistrationOptions session.userId db freshChallenge
          let (res, sessions') := createSession db.sessions
            ⟨"challenge-" ++ sid, session.userId, opts.challenge, now + 5 * 60 * 1000⟩
          match res with
          | .error e => (.serverError e, db)
          | .ok () => (.ok opts.challenge opts.excludeIds, { db with sessions := sessions' })

/-- Response of the `POST /api/passkeys/register/verify` route.
`invalidChallenge` is the 400 `Invalid challenge` answer, the route-level form
of the spec's `ChallengeNotFound`. -/
inductive RegVerifyResp where
  | notAuthenticated
  | invalidSession
  | challengeRequired
  | invalidChallenge
  | done (verified : Bool) (credentialId : String)
  | serverError (e : WError)
deriving Repr, DecidableEq

/-- JSON body of a register-verify request: the registration response plus the
top-level `challenge` field the client sends back. -/
structure RegVerifyRequest where
  body : RegistrationBody
  challenge : Option String
deriving Repr, DecidableEq

/-- `POST` of `src/src/app/api/passkeys/register/verify/route.ts`: require a
login session and a truthy challenge field; fetch the stored challenge session
`challenge-` + session id and compare its challenge with the submitted one
(absence or mismatch answers 400 `Invalid challenge`); run
`verifyPasskeyRegistration`; a throw answers 500 without touching the
challenge session; otherwise delete the challenge session and report the
verification outcome. -/
def regVerifyPOST (cfg : Config) (cookie : Option String) (req : RegVerifyRequest)
    (db : Db) (now : Nat) : RegVerifyResp × Db :=
  match cookie with
  | none => (.notAuthenticated, db)
  | some sid =>
    match getSession db sid now with
    | none => (.invalidSession, db)
    | some (session, _) =>
      match req.challenge with
      | none => (.challengeRequired, db)
      | some ch =>
        if ch == "" then (.challengeRequired, db)
        else
          match getSession db ("challenge-" ++ sid) now with
          | none => (.invalidChallenge, db)
          | some (challengeSession, _) =>
            if challengeSession.challenge != ch then (.invalidChallenge, db)
            else
              let r := verifyPasskeyRegistration cfg req.body ch session.userId db
              match r.1 with
              | .error e => (.serverError e, r.2)
              | .ok outcome =>
                (.done outcome.verified outcome.credentialId,
                 { r.2 with sessions := deleteSession r.2.sessions ("challenge-" ++ sid) })

/-- Response of the `POST /api/passkeys/authenticate/verify` route. -/
inductive AuthVerifyResp where
  | challengeRequired
  | failed
  | ok (userId : Nat) (username : String)
  | serverError (e : WError)
deriving Repr, DecidableEq

/-- JSON body of an authenticate-verify request: the assertion plus the
top-level `challenge` field — the route takes the expected challenge from the
client's own request body; no server-side challenge session is consulted or
consumed. -/
structure AuthVerifyRequest where
  body : Assertion
  challenge : Option String
deriving Repr, DecidableEq

/-- `POST` of `src/src/app/api/passkeys/authenticate/verify/route.ts`: require
a truthy challenge field; run `verifyPasskeyAuthentication` with the
client-supplied challenge as the expected one; on failure answer
`success: false`; on success create a 24-hour login session (its fresh random
id is an explicit parameter) and answer with the user's identity. -/
def authVerifyPOST (cfg : Config) (req : AuthVerifyRequest) (db : Db) (now : Nat)
    (freshSessionId : String) : AuthVerifyResp × Db :=
  match req.challenge with
  | none => (.challengeRequired, db)
  | some ch =>
    if ch == "" then (.challengeRequired, db)
    else
      let r := verifyPasskeyAuthentication cfg req.body ch db now
      match r.1 with
      | .error e => (.serverError e, r.2)
      | .ok outcome =>
        if !outcome.verified then (.failed, r.2)
        else
          let s := createSession r.2.sessions
            ⟨freshSessionId, outcome.userId, "passkey-login", now + 24 * 60 * 60 * 1000⟩
          match s.1 with
          | .error e => (.serverError e, r.2)
          | .ok () => (.ok outcome.userId outcome.username, { r.2 with sessions := s.2 })

/-! Helper lemmas. -/

/-- Equality of fallible results is decidable, so concrete runs can be checked
by evaluation. -/
instance {ε α : Type} [DecidableEq ε] [DecidableEq α] : DecidableEq (Except ε α)
  | .error a, .error b =>
    if h : a = b then .isTrue (by rw [h]) else .isFalse (fun hh => by cases hh; exact h rfl)
  | .error _, .ok _ => .isFalse (fun hh => by cases hh)
  | .ok _, .error _ => .isFalse (fun hh => by cases hh)
  | .ok a, .ok b =>
    if h : a = b then .isTrue (by rw [h]) else .isFalse (fun hh => by cases hh; exact h rfl)

/-- Unfolding equation of `verifyPasskeyAuthentication` when the credential id
is absent from the store. -/
theorem verifyPasskeyAuthentication_not_found (cfg : Config) (body : Assertion)
    (ch : String) (db : Db) (now : Nat)
    (hl : getPasskeyByCredentialId db body.id = none) :
    verifyPasskeyAuthentication cfg body ch db now = (.error .CredentialNotFound, db) := by
  unfold verifyPasskeyAuthentication
  simp only [hl]

/-- Unfolding equation of `verifyPasskeyAuthentication` when the credential id
resolves to a stored passkey and its owner. -/
theorem verifyPasskeyAuthentication_found (cfg : Config) (body : Assertion)
    (ch : String) (db : Db) (now : Nat) (p : DbPasskey) (un : String)
    (hl : getPasskeyByCredentialId db body.id = some (p, un)) :
    verifyPasskeyAuthentication cfg body ch db now =
      (.ok ⟨(verifyAuthenticationResponse body ch cfg.origin cfg.rpId p.publicKey p.counter).verified,
            p.userId, un,
            (verifyAuthenticationResponse body ch cfg.origin cfg.rpId p.publicKey p.counter).reason⟩,
       if (verifyAuthenticationResponse body ch cfg.origin cfg.rpId p.publicKey p.counter).verified then
         match (verifyAuthenticationResponse body ch cfg.origin cfg.rpId p.publicKey p.counter).info with
         | some info =>
           { db with passkeys := updatePasskeyCounter db.passkeys info.newCounter body.id now }
         | none => db
       else db) := by
  unfold verifyPasskeyAuthentication
  simp only [hl]

/-- Length of the base64url character list: four characters per three bytes,
rounded up to two or three characters for a trailing partial group. -/
theorem base64urlEncodeAux_length : ∀ bs : List Nat,
    (base64urlEncodeAux bs).length = (4 * bs.length + 2) / 3
  | [] => rfl
  | [_] => by simp [base64urlEncodeAux]
  | [_, _] => by simp [base64urlEncodeAux]
  | _ :: _ :: _ :: rest => by
      simp only [base64urlEncodeAux, List.length_cons,
        base64urlEncodeAux_length rest]
      omega

/-- Length of the base64url string. -/
theorem base64urlEncode_length (bs : List Nat) :
    (base64urlEncode bs).length = (4 * bs.length + 2) / 3 :=
  base64urlEncodeAux_length bs

/-- UTF-8 byte count of the strings fed to `Buffer.from` here. -/
theorem asciiBytes_length (s : String) : (asciiBytes s).length = s.length :=
  List.length_map ..

/-- Re-encoding a nonempty string as base64url of its bytes strictly grows it,
so the result is a different string. -/
theorem base64url_reencode_ne (s : String) (h : 1 ≤ s.length) :
    base64urlEncode (asciiBytes s) ≠ s := by
  intro he
  have hl := congrArg String.length he
  rw [base64urlEncode_length, asciiBytes_length] at hl
  omega

/-! Shared concrete fixtures for witnesses and counterexamples. -/

/-- A user row. -/
def aliceUser : DbUser := ⟨1, "alice"⟩

/-- Alice's passkey with a zero stored counter. -/
def pkZero : DbPasskey := ⟨1, "credA", "pkA", 0, "platform", false, none, none⟩

/-- Alice's passkey with stored counter 5. -/
def pkFive : DbPasskey := ⟨1, "credA", "pkA", 5, "platform", false, none, none⟩

/-- Database holding alice and `pkZero`. -/
def dbZero : Db := ⟨[aliceUser], [pkZero], []⟩

/-- Database holding alice and `pkFive`. -/
def dbFive : Db := ⟨[aliceUser], [pkFive], []⟩

/-- Database holding only alice. -/
def dbAliceOnly : Db := ⟨[aliceUser], [], []⟩

/-- A valid assertion over `credA` reporting counter `c`, for the development
configuration. -/
def assertW (c : Nat) : Assertion :=
  ⟨"credA", "chal1", "http://localhost:3200", "localhost", "pkA", c⟩

/-- A registration response with raw credential id bytes `[1, 2, 3]`, honest
client-declared id, attested counter 5, for the legacy development origin. -/
def regBody0W : RegistrationBody :=
  ⟨base64urlEncode [1, 2, 3], [1, 2, 3], "chal1", "http://localhost:3000",
   "localhost", true, "pub", 5, zeroAaguid, false, none⟩

/-! Claim theorems. -/

/-- C6: a second `insertCredential` (`createPasskey`) call with a credential id
already present — for the same or a different user — fails with
`DuplicateCredential` and leaves the passkeys table unchanged; credential ids
are globally unique across users. -/
theorem insertDuplicateCredentialFails (passkeys : List DbPasskey)
    (p q : DbPasskey) (hmem : p ∈ passkeys) (hid : q.credentialId = p.credentialId) :
    createPasskey passkeys q = (.error .DuplicateCredential, passkeys) := by
  unfold createPasskey
  have hany : passkeys.any (fun r => r.credentialId == q.credentialId) = true :=
    List.any_eq_true.mpr ⟨p, hmem, by simp [hid]⟩
  simp [hany]

/-- Witness for C6 at a concrete store: the duplicate insert is attempted by a
different user (user 2) against alice's credential id. -/
theorem insertDuplicateCredentialFails_witness :
    createPasskey [pkZero]
      ⟨2, "credA", "pkB", 3, "cross-platform", true, none, none⟩
      = (.error .DuplicateCredential, [pkZero]) :=
  insertDuplicateCredentialFails [pkZero]
    pkZero ⟨2, "credA", "pkB", 3, "cross-platform", true, none, none⟩
    (by simp) (by rfl)

/-- C3 fails on the code: the authenticate-verify route consumes no challenge.
At this concrete input — alice's passkey with stored counter 0 and a valid
assertion reporting counter 0 — the very same request body (same assertion and
same challenge) is accepted by two successive verification calls: both answer
success with alice's identity. -/
theorem authChallengeReplayAccepted :
    (authVerifyPOST devConfig ⟨assertW 0, some "chal1"⟩ dbZero 0 "s1").1
      = .ok 1 "alice"
  ∧ (authVerifyPOST devConfig ⟨assertW 0, some "chal1"⟩
      (authVerifyPOST devConfig ⟨assertW 0, some "chal1"⟩ dbZero 0 "s1").2 1 "s2").1
      = .ok 1 "alice" := by
  decide

/-- Counterexample to C5: with a live (unconsumed, unexpired) challenge session
`challenge-s` holding `oldch`, a second registration-options request for the
same login session neither reuses nor overwrites it — the `INSERT` hits the
primary-key constraint, the route answers 500, and the stored challenge is
still `oldch`. -/
theorem regOptionsReRequestFailsCex :
    (regOptionsPOST (some "s") (some "alice") "newch"
        ⟨[aliceUser], [], [⟨"s", 1, "login", 1000⟩, ⟨"challenge-s", 1, "oldch", 1000⟩]⟩ 0)
      = (.serverError .DuplicateSessionId,
         ⟨[aliceUser], [], [⟨"s", 1, "login", 1000⟩, ⟨"challenge-s", 1, "oldch", 1000⟩]⟩) := by
  decide

/-- C5 amended: re-requesting registration options while a challenge session
row for that login session still exists fails with the duplicate-key error and
leaves the database unchanged — the invariant of at most one live challenge is
kept by rejection, not by reuse or overwrite. -/
theorem regOptionsDuplicateChallengeRejected (sid uname fc : String) (db : Db)
    (now : Nat) (session : DbSession) (sessUname : String)
    (hlogin : getSession db sid now = some (session, sessUname))
    (huname : uname ≠ "")
    (hdup : db.sessions.any (fun t => t.id == "challenge-" ++ sid) = true) :
    regOptionsPOST (some sid) (some uname) fc db now
      = (.serverError .DuplicateSessionId, db) := by
  unfold regOptionsPOST createSession
  simp [hlogin, huname, hdup]

/-- Witness for C5 at the concrete live-challenge store. -/
theorem regOptionsDuplicateChallengeRejected_witness :
    regOptionsPOST (some "s") (some "alice") "newch"
        ⟨[aliceUser], [], [⟨"s", 1, "login", 1000⟩, ⟨"challenge-s", 1, "oldch", 1000⟩]⟩ 0
      = (.serverError .DuplicateSessionId,
         ⟨[aliceUser], [], [⟨"s", 1, "login", 1000⟩, ⟨"challenge-s", 1, "oldch", 1000⟩]⟩) :=
  regOptionsDuplicateChallengeRejected "s" "alice" "newch"
    ⟨[aliceUser], [], [⟨"s", 1, "login", 1000⟩, ⟨"challenge-s", 1, "oldch", 1000⟩]⟩ 0
    ⟨"s", 1, "login", 1000⟩ "alice" (by decide) (by decide) (by decide)

/-- Counterexample to C8: the legacy registration path in
`src/unnamed/part_000` verifies this response — whose attestation declares an
initial counter of 5 — yet persists the credential with counter 0. -/
theorem regCounterForcedZeroCex :
    regBody0W.counter = 5
  ∧ (verifyPasskeyRegistration0 devConfig0 regBody0W "chal1" 1 dbAliceOnly).1
      = .ok ⟨true, "QVFJRA"⟩
  ∧ (verifyPasskeyRegistration0 devConfig0 regBody0W "chal1" 1 dbAliceOnly).2.passkeys.map
      (fun p => p.counter) = [0] := by
  decide

/-- C8 amended: on a successfully verified registration the engine in
`src/src/lib/webauthn.ts` persists the credential with its counter equal to
the initial counter declared in the attestation, while the legacy engine in
`src/unnamed/part_000` forces the persisted counter to 0. -/
theorem regStoredCounter :
    (∀ (cfg : Config) (body : RegistrationBody) (ch : String) (uid : Nat) (db : Db),
       body.challenge = ch → body.origin = cfg.origin → body.rpId = cfg.rpId →
       body.attOk = true →
       db.passkeys.any (fun q => q.credentialId == body.id) = false →
       (verifyPasskeyRegistration cfg body ch uid db).2.passkeys.map (fun p => p.counter)
         = db.passkeys.map (fun p => p.counter) ++ [body.counter])
  ∧ (∀ (cfg : Config) (body : RegistrationBody) (ch : String) (uid : Nat) (db : Db),
       body.challenge = ch → body.origin = cfg.origin → body.rpId = cfg.rpId →
       body.attOk = true →
       db.passkeys.any (fun q =>
           q.credentialId == base64urlEncode (asciiBytes (base64urlEncode body.credIdRaw)))
         = false →
       (verifyPasskeyRegistration0 cfg body ch uid db).2.passkeys.map (fun p => p.counter)
         = db.passkeys.map (fun p => p.counter) ++ [0]) := by
  constructor
  · intro cfg body ch uid db hch hor hrp hatt hdup
    unfold verifyPasskeyRegistration verifyRegistrationResponse createPasskey
    simp [hch, hor, hrp, hatt, hdup]
  · intro cfg body ch uid db hch hor hrp hatt hdup
    unfold verifyPasskeyRegistration0 verifyRegistrationResponse createPasskey
    simp [hch, hor, hrp, hatt, hdup]

/-- Witness for C8 at the concrete fixture: the current engine stores counter
5, the legacy engine stores counter 0 for the same verified response. -/
theorem regStoredCounter_witness :
    (verifyPasskeyRegistration devConfig0 regBody0W "chal1" 1 dbAliceOnly).2.passkeys.map
        (fun p => p.counter) = [5]
  ∧ (verifyPasskeyRegistration0 devConfig0 regBody0W "chal1" 1 dbAliceOnly).2.passkeys.map
        (fun p => p.counter) = [0] :=
  ⟨regStoredCounter.1 devConfig0 regBody0W "chal1" 1 dbAliceOnly
      (by rfl) (by rfl) (by rfl) (by rfl) (by decide),
   regStoredCounter.2 devConfig0 regBody0W "chal1" 1 dbAliceOnly
      (by rfl) (by rfl) (by rfl) (by rfl) (by decide)⟩

/-- Counterexample to C9: the same honest registration response — whose
client-declared id equals the library's base64url credential id `AQID` — is
persisted as `AQID` by `src/src/lib/webauthn.ts` but as the double-encoded
`QVFJRA` by `src/unnamed/part_000`; the two code paths do not derive the same
identifier. -/
theorem credentialIdPathsDifferCex :
    regBody0W.id = base64urlEncode regBody0W.credIdRaw
  ∧ (verifyPasskeyRegistration devConfig0 regBody0W "chal1" 1 dbAliceOnly).2.passkeys.map
      (fun p => p.credentialId) = ["AQID"]
  ∧ (verifyPasskeyRegistration0 devConfig0 regBody0W "chal1" 1 dbAliceOnly).2.passkeys.map
      (fun p => p.credentialId) = ["QVFJRA"]
  ∧ ("AQID" : String) ≠ "QVFJRA" := by
  decide

/-- C9 amended: for every honest verified registration response with a
nonempty raw credential id, the id persisted by `src/src/lib/webauthn.ts` is
the client-declared `body.id`, the id persisted by `src/unnamed/part_000` is
the base64url re-encoding of the UTF-8 bytes of the library's base64url
credential id, and the two always differ (the re-encoding is strictly
longer). -/
theorem credentialIdDerivationsDiverge (cfg : Config) (body : RegistrationBody)
    (ch : String) (uid : Nat) (db : Db)
    (hhonest : body.id = base64urlEncode body.credIdRaw)
    (hraw : body.credIdRaw ≠ [])
    (hch : body.challenge = ch) (hor : body.origin = cfg.origin)
    (hrp : body.rpId = cfg.rpId) (hatt : body.attOk = true)
    (hd1 : db.passkeys.any (fun q => q.credentialId == body.id) = false)
    (hd2 : db.passkeys.any (fun q =>
        q.credentialId == base64urlEncode (asciiBytes (base64urlEncode body.credIdRaw)))
      = false) :
    (verifyPasskeyRegistration cfg body ch uid db).2.passkeys.map (fun p => p.credentialId)
      = db.passkeys.map (fun p => p.credentialId) ++ [body.id]
  ∧ (verifyPasskeyRegistration0 cfg body ch uid db).2.passkeys.map (fun p => p.credentialId)
      = db.passkeys.map (fun p => p.credentialId)
          ++ [base64urlEncode (asciiBytes (base64urlEncode body.credIdRaw))]
  ∧ base64urlEncode (asciiBytes (base64urlEncode body.credIdRaw)) ≠ body.id := by
  refine ⟨?_, ?_, ?_⟩
  · unfold verifyPasskeyRegistration verifyRegistrationResponse createPasskey
    simp [hch, hor, hrp, hatt, hd1]
  · unfold verifyPasskeyRegistration0 verifyRegistrationResponse createPasskey
    simp [hch, hor, hrp, hatt, hd2]
  · rw [hhonest]
    apply base64url_reencode_ne
    rw [base64urlEncode_length]
    have hlen : 0 < body.credIdRaw.length := List.length_pos.mpr hraw
    omega

/-- Witness for C9 at the concrete fixture: `AQID` versus `QVFJRA`. -/
theorem credentialIdDerivationsDiverge_witness :
    (verifyPasskeyRegistration devConfig0 regBody0W "chal1" 1 dbAliceOnly).2.passkeys.map
        (fun p => p.credentialId) = ["AQID"]
  ∧ (verifyPasskeyRegistration0 devConfig0 regBody0W "chal1" 1 dbAliceOnly).2.passkeys.map
        (fun p => p.credentialId) = ["QVFJRA"]
  ∧ ("QVFJRA" : String) ≠ "AQID" :=
  credentialIdDerivationsDiverge devConfig0 regBody0W "chal1" 1 dbAliceOnly
    (by rfl) (by decide) (by rfl) (by rfl) (by rfl) (by rfl) (by decide) (by decide)

/-- C7: the authentication-options allow-list names exactly the resolved
user's stored credential ids (with their transports); with no username, or a
username resolving to no user, the options carry no allow-list (the engine
passes an empty list to the library as an absent field). -/
theorem authenticationAllowList (cfg : Config) (db : Db) (fc : String) :
    ((generatePasskeyAuthenticationOptions cfg none db fc).allowCredentials = none)
  ∧ (∀ uname, uname ≠ "" → getUserByUsername db.users uname = none →
      (generatePasskeyAuthenticationOptions cfg (some uname) db fc).allowCredentials = none)
  ∧ (∀ uname u, uname ≠ "" → getUserByUsername db.users uname = some u →
      allowedIds (generatePasskeyAuthenticationOptions cfg (some uname) db fc)
        = (getPasskeysByUserId db.passkeys u.id).map (fun p => p.credentialId)
      ∧ (getPasskeysByUserId db.passkeys u.id ≠ [] →
         (generatePasskeyAuthenticationOptions cfg (some uname) db fc).allowCredentials
           = some ((getPasskeysByUserId db.passkeys u.id).map
               (fun p => (⟨p.credentialId, p.transports⟩ : AllowCredential))))) := by
  refine ⟨rfl, ?_, ?_⟩
  · intro uname hne hnone
    unfold generatePasskeyAuthenticationOptions
    simp [hne, hnone]
  · intro uname u hne hu
    have hbe : (uname == "") = false := beq_eq_false_iff_ne.mpr hne
    unfold generatePasskeyAuthenticationOptions allowedIds
    simp only [hbe, Bool.false_eq_true, if_false, hu]
    by_cases hps : getPasskeysByUserId db.passkeys u.id = []
    · simp [hps]
    · have hlen : 0 < (getPasskeysByUserId db.passkeys u.id).length :=
        List.length_pos.mpr hps
      constructor
      · rw [if_pos (by simpa using hlen)]
        simp [List.map_map, Function.comp]
      · intro _
        rw [if_pos (by simpa using hlen)]

/-- Witness for C7: alice owns two credentials; the allow-list holds exactly
their ids (newest first), and both an absent username and an unknown username
yield no allow-list. -/
theorem authenticationAllowList_witness :
    allowedIds (generatePasskeyAuthenticationOptions devConfig (some "alice")
        ⟨[aliceUser],
         [⟨1, "credA", "pkA", 0, "platform", false, none, none⟩,
          ⟨1, "credB", "pkB", 0, "platform", false, none, none⟩], []⟩ "fc")
      = ["credB", "credA"]
  ∧ (generatePasskeyAuthenticationOptions devConfig none dbZero "fc").allowCredentials = none
  ∧ (generatePasskeyAuthenticationOptions devConfig (some "bob") dbZero "fc").allowCredentials
      = none := by
  refine ⟨?_, ?_, ?_⟩
  · exact ((authenticationAllowList devConfig
      ⟨[aliceUser],
       [⟨1, "credA", "pkA", 0, "platform", false, none, none⟩,
        ⟨1, "credB", "pkB", 0, "platform", false, none, none⟩], []⟩ "fc").2.2
      "alice" aliceUser (by decide) (by decide)).1.trans (by decide)
  · exact (authenticationAllowList devConfig dbZero "fc").1
  · exact (authenticationAllowList devConfig dbZero "fc").2.1 "bob" (by decide) (by decide)

/-- C10: whenever the credential id of an authentication response is found in
the store, `verifyPasskeyAuthentication` answers with the stored passkey's
owning user id and username — whatever the verification outcome, so a failed
check still discloses the owner's identity. -/
theorem authDisclosesOwnerIdentity (cfg : Config) (body : Assertion) (ch : String)
    (db : Db) (now : Nat) (p : DbPasskey) (uname : String)
    (h : getPasskeyByCredentialId db body.id = some (p, uname)) :
    ∃ r, (verifyPasskeyAuthentication cfg body ch db now).1 = .ok r
      ∧ r.userId = p.userId ∧ r.username = uname := by
  rw [verifyPasskeyAuthentication_found cfg body ch db now p uname h]
  exact ⟨_, rfl, rfl, rfl⟩

/-- Witness for C10: the submitted assertion's signature does not verify under
the stored key, yet the returned result names alice. -/
theorem authDisclosesOwnerIdentity_witness :
    ∃ r, (verifyPasskeyAuthentication devConfig
        ⟨"credA", "chal1", "http://localhost:3200", "localhost", "WRONG", 0⟩
        "chal1" dbZero 0).1 = .ok r
      ∧ r.userId = 1 ∧ r.username = "alice" :=
  authDisclosesOwnerIdentity devConfig
    ⟨"credA", "chal1", "http://localhost:3200", "localhost", "WRONG", 0⟩
    "chal1" dbZero 0 pkZero "alice" (by decide)

/-- C2: a verification call whose outcome is not verified — for any reason,
including a missing credential — leaves the credential store (counter and
last-used timestamp included) unchanged; the counter update runs only on a
verified outcome. -/
theorem authFailureLeavesStoreUnchanged (cfg : Config) (body : Assertion)
    (ch : String) (db : Db) (now : Nat) :
    (∀ e, (verifyPasskeyAuthentication cfg body ch db now).1 = .error e →
        (verifyPasskeyAuthentication cfg body ch db now).2 = db)
  ∧ (∀ r, (verifyPasskeyAuthentication cfg body ch db now).1 = .ok r →
        r.verified = false →
        (verifyPasskeyAuthentication cfg body ch db now).2 = db) := by
  cases hl : getPasskeyByCredentialId db body.id with
  | none =>
    rw [verifyPasskeyAuthentication_not_found cfg body ch db now hl]
    exact ⟨fun _ _ => rfl, fun _ _ _ => rfl⟩
  | some pu =>
    obtain ⟨p, un⟩ := pu
    rw [verifyPasskeyAuthentication_found cfg body ch db now p un hl]
    constructor
    · intro e he
      simp at he
    · intro r hr hv
      simp only [Except.ok.injEq] at hr
      have hvf : (verifyAuthenticationResponse body ch cfg.origin cfg.rpId
          p.publicKey p.counter).verified = false := by
        rw [← hr] at hv
        exact hv
      simp [hvf]

/-- Witness for C2: a counter-regressing assertion against a stored counter of
5 is rejected and the store is exactly the prior store. -/
theorem authFailureLeavesStoreUnchanged_witness :
    (verifyPasskeyAuthentication devConfig (assertW 3) "chal1" dbFive 7).2 = dbFive :=
  (authFailureLeavesStoreUnchanged devConfig (assertW 3) "chal1" dbFive 7).2
    ⟨false, 1, "alice", some .CounterRegression⟩ (by decide) (by rfl)

/-- A counter update through `updatePasskeyCounter` is visible to a subsequent
lookup of the same credential id: the found row carries the new counter and the
refreshed last-used timestamp. -/
theorem getPasskeyByCredentialId_update (db : Db) (cid : String) (p : DbPasskey)
    (uname : String) (nc now : Nat)
    (h : getPasskeyByCredentialId db cid = some (p, uname)) :
    getPasskeyByCredentialId
        { db with passkeys := updatePasskeyCounter db.passkeys nc cid now } cid
      = some ({ p with counter := nc, lastUsedAt := some now }, uname) := by
  unfold getPasskeyByCredentialId at h ⊢
  rcases hb : db.passkeys.find? (fun q => q.credentialId == cid) with _ | p0
  · rw [hb] at h
    simp at h
  · rw [hb] at h
    simp only [Option.some_bind] at h
    rcases hu : db.users.find? (fun u => u.id == p0.userId) with _ | u
    · rw [hu] at h
      simp at h
    · rw [hu] at h
      simp only [Option.map_some'] at h
      have h2 := Option.some.inj h
      have hp0 : p0 = p := congrArg Prod.fst h2
      have hun : u.username = uname := congrArg Prod.snd h2
      subst hp0
      subst hun
      have hpred := List.find?_some hb
      unfold updatePasskeyCounter
      rw [List.find?_map]
      have hcomp :
          ((fun q : DbPasskey => q.credentialId == cid) ∘
            (fun q : DbPasskey =>
              if q.credentialId == cid then
                { q with counter := nc, lastUsedAt := some now }
              else q))
          = (fun q : DbPasskey => q.credentialId == cid) := by
        funext q
        by_cases hq : (q.credentialId == cid) = true <;> simp [Function.comp, hq]
      rw [hcomp, hb]
      simp [eq_of_beq hpred, hu]

/-- C1: against a stored credential with a nonzero counter, an otherwise valid
assertion reporting a counter at or below the stored one fails with
`CounterRegression` and leaves the store untouched, while an assertion
reporting a strictly greater counter verifies and the stored counter becomes
exactly the reported value. -/
theorem counterRegressionPolicy (cfg : Config) (db : Db) (body : Assertion)
    (expectedChallenge : String) (now : Nat) (p : DbPasskey) (uname : String)
    (hfind : getPasskeyByCredentialId db body.id = some (p, uname))
    (hch : body.challenge = expectedChallenge)
    (hor : body.origin = cfg.origin)
    (hrp : body.rpId = cfg.rpId)
    (hsig : body.signedWith = p.publicKey)
    (hcnt : p.counter ≠ 0) :
    (body.counter ≤ p.counter →
       verifyPasskeyAuthentication cfg body expectedChallenge db now
         = (.ok ⟨false, p.userId, uname, some .CounterRegression⟩, db))
  ∧ (p.counter < body.counter →
       (verifyPasskeyAuthentication cfg body expectedChallenge db now).1
         = .ok ⟨true, p.userId, uname, none⟩
     ∧ getPasskeyByCredentialId
         (verifyPasskeyAuthentication cfg body expectedChallenge db now).2 body.id
         = some ({ p with counter := body.counter, lastUsedAt := some now }, uname)) := by
  have hbne : (p.counter != 0) = true := bne_iff_ne.mpr hcnt
  rw [verifyPasskeyAuthentication_found cfg body expectedChallenge db now p uname hfind]
  unfold verifyAuthenticationResponse
  simp only [hch, hor, hrp, hsig, bne_self_eq_false, Bool.false_eq_true, if_false]
  constructor
  · intro hle
    have hdec : (decide (body.counter ≤ p.counter)) = true := decide_eq_true hle
    simp [hbne, hdec]
  · intro hlt
    have hdec : (decide (body.counter ≤ p.counter)) = false :=
      decide_eq_false (not_le.mpr hlt)
    simp only [hbne, hdec, Bool.and_false, Bool.false_eq_true, if_false]
    refine ⟨?_, ?_⟩
    · first
      | rfl
      | trivial
    · exact getPasskeyByCredentialId_update db body.id p uname body.counter now hfind

/-- Witness for C1 at the spec's own example: stored counter 5, reported
counters 5 and 3 are rejected as `CounterRegression` with the store unchanged,
reported counter 6 verifies and the stored counter becomes 6. -/
theorem counterRegressionPolicy_witness :
    verifyPasskeyAuthentication devConfig (assertW 5) "chal1" dbFive 7
      = (.ok ⟨false, 1, "alice", some .CounterRegression⟩, dbFive)
  ∧ verifyPasskeyAuthentication devConfig (assertW 3) "chal1" dbFive 7
      = (.ok ⟨false, 1, "alice", some .CounterRegression⟩, dbFive)
  ∧ (verifyPasskeyAuthentication devConfig (assertW 6) "chal1" dbFive 7).1
      = .ok ⟨true, 1, "alice", none⟩
  ∧ getPasskeyByCredentialId
      (verifyPasskeyAuthentication devConfig (assertW 6) "chal1" dbFive 7).2 "credA"
      = some (⟨1, "credA", "pkA", 6, "platform", false, none, some 7⟩, "alice") :=
  ⟨(counterRegressionPolicy devConfig dbFive (assertW 5) "chal1" 7 pkFive "alice"
      (by decide) rfl rfl rfl rfl (by decide)).1 (by decide),
   (counterRegressionPolicy devConfig dbFive (assertW 3) "chal1" 7 pkFive "alice"
      (by decide) rfl rfl rfl rfl (by decide)).1 (by decide),
   ((counterRegressionPolicy devConfig dbFive (assertW 6) "chal1" 7 pkFive "alice"
      (by decide) rfl rfl rfl rfl (by decide)).2 (by decide)).1,
   ((counterRegressionPolicy devConfig dbFive (assertW 6) "chal1" 7 pkFive "alice"
      (by decide) rfl rfl rfl rfl (by decide)).2 (by decide)).2⟩

/-- A login-session id never collides with its derived challenge-session id. -/
theorem sid_ne_challenge (sid : String) : sid ≠ "challenge-" ++ sid := by
  intro h
  have hl := congrArg String.length h
  rw [String.length_append] at hl
  have h10 : ("challenge-" : String).length = 10 := by decide
  omega

/-- Deleting the challenge-session row does not disturb the lookup of a
different session id. -/
theorem find?_deleteSession_ne (l : List DbSession) (c sid : String) (now : Nat)
    (h : sid ≠ c) :
    (deleteSession l c).find? (fun s => s.id == sid && decide (now < s.expiresAt))
      = l.find? (fun s => s.id == sid && decide (now < s.expiresAt)) := by
  unfold deleteSession
  induction l with
  | nil => rfl
  | cons a l ih =>
    by_cases hc : a.id = c
    · have h1 : (a.id == c) = true := beq_iff_eq.mpr hc
      have h2 : (a.id == sid) = false :=
        beq_eq_false_iff_ne.mpr (fun hh => h (hh ▸ hc))
      simp [List.filter_cons, h1, List.find?_cons, h2, ih]
    · have h1 : (a.id == c) = false := beq_eq_false_iff_ne.mpr hc
      by_cases hp : (a.id == sid && decide (now < a.expiresAt)) = true
      · simp [List.filter_cons, h1, List.find?_cons, hp]
      · simp only [Bool.not_eq_true] at hp
        simp [List.filter_cons, h1, List.find?_cons, hp, ih]

/-- After the challenge-session row is deleted, looking it up again finds
nothing. -/
theorem find?_deleteSession_self (l : List DbSession) (c : String) (now : Nat) :
    (deleteSession l c).find? (fun s => s.id == c && decide (now < s.expiresAt)) = none := by
  apply List.find?_eq_none.mpr
  intro s hs
  unfold deleteSession at hs
  rw [List.mem_filter] at hs
  obtain ⟨_, hnc⟩ := hs
  simp only [Bool.not_eq_eq_eq_not, Bool.not_true, beq_eq_false_iff_ne] at hnc
  simp [hnc]

/-- `verifyPasskeyRegistration` writes at most the passkeys table: the users
and sessions tables come through unchanged. -/
theorem verifyPasskeyRegistration_keeps (cfg : Config) (body : RegistrationBody)
    (ch : String) (uid : Nat) (db : Db) :
    (verifyPasskeyRegistration cfg body ch uid db).2.users = db.users
  ∧ (verifyPasskeyRegistration cfg body ch uid db).2.sessions = db.sessions := by
  unfold verifyPasskeyRegistration createPasskey
  refine ⟨?_, ?_⟩ <;>
    (dsimp only
     split
     · split
       · split <;> rfl
       · rfl
     · rfl)

/-- A session lookup only depends on the users table and the result of the
find over the sessions table. -/
theorem getSession_congr (db db' : Db) (sid : String) (now : Nat)
    (hu : db'.users = db.users)
    (hs : db'.sessions.find? (fun s => s.id == sid && decide (now < s.expiresAt))
        = db.sessions.find? (fun s => s.id == sid && decide (now < s.expiresAt))) :
    getSession db' sid now = getSession db sid now := by
  unfold getSession
  rw [hu, hs]

/-- C4: once a register-verify call for a ceremony has gone through —
consuming the stored challenge session — replaying the identical request
(same cookie, same body, same challenge) is rejected by the challenge check
(the route's 400 `Invalid challenge`, the spec's `ChallengeNotFound`) and
cannot produce a second verified registration; the state is left as the first
call left it. -/
theorem regVerifyReplayRejected (cfg : Config) (sid : String) (req : RegVerifyRequest)
    (db : Db) (now : Nat) (v : Bool) (cid : String) (db1 : Db)
    (h1 : regVerifyPOST cfg (some sid) req db now = (.done v cid, db1)) :
    regVerifyPOST cfg (some sid) req db1 now = (.invalidChallenge, db1) := by
  unfold regVerifyPOST at h1
  rcases hgs : getSession db sid now with _ | ⟨session, su⟩
  · simp [hgs] at h1
  simp only [hgs] at h1
  rcases hch : req.challenge with _ | ch
  · simp [hch] at h1
  simp only [hch] at h1
  by_cases hche : ch = ""
  · subst hche
    simp at h1
  have hbe : (ch == "") = false := beq_eq_false_iff_ne.mpr hche
  simp only [hbe, Bool.false_eq_true, if_false] at h1
  rcases hcs : getSession db ("challenge-" ++ sid) now with _ | ⟨chs, cu⟩
  · simp [hcs] at h1
  simp only [hcs] at h1
  by_cases hcm : chs.challenge = ch
  case neg =>
    have hx : (chs.challenge != ch) = true := bne_iff_ne.mpr hcm
    simp [hx] at h1
  have hbne : (chs.challenge != ch) = false := by
    rw [hcm]
    exact bne_self_eq_false ch
  simp only [hbne, Bool.false_eq_true, if_false] at h1
  rcases hvr : verifyPasskeyRegistration cfg req.body ch session.userId db with ⟨res, dbv⟩
  simp only [hvr] at h1
  cases res with
  | error e => simp at h1
  | ok outcome =>
    simp only [Prod.mk.injEq, RegVerifyResp.done.injEq] at h1
    obtain ⟨⟨hv, hcid⟩, hdb1⟩ := h1
    have hkeep := verifyPasskeyRegistration_keeps cfg req.body ch session.userId db
    rw [hvr] at hkeep
    obtain ⟨hku, hks⟩ := hkeep
    have hdu : db1.users = db.users := by rw [← hdb1]; exact hku
    have hds : db1.sessions = deleteSession db.sessions ("challenge-" ++ sid) := by
      rw [← hdb1]
      dsimp only
      rw [hks]
    have hgs1 : getSession db1 sid now = some (session, su) := by
      rw [getSession_congr db db1 sid now hdu
        (by rw [hds]; exact find?_deleteSession_ne db.sessions ("challenge-" ++ sid) sid now
              (sid_ne_challenge sid))]
      exact hgs
    have hcs1 : getSession db1 ("challenge-" ++ sid) now = none := by
      unfold getSession
      rw [hds, find?_deleteSession_self]
      rfl
    unfold regVerifyPOST
    simp only [hgs1, hch, hbe, Bool.false_eq_true, if_false, hcs1]

/-- Witness for C4: a concrete full ceremony — alice's login session, the
stored challenge session, a valid attestation — whose first verify call is
`done` and whose identical replay is rejected as an invalid (consumed)
challenge. -/
theorem regVerifyReplayRejected_witness :
    regVerifyPOST devConfig (some "s")
        ⟨⟨base64urlEncode [1, 2, 3], [1, 2, 3], "chal1", "http://localhost:3200",
          "localhost", true, "pub", 5, zeroAaguid, false, none⟩, some "chal1"⟩
        ⟨[aliceUser], [], [⟨"s", 1, "login", 1000⟩, ⟨"challenge-s", 1, "chal1", 1000⟩]⟩ 0
      = (.done true "AQID",
         ⟨[aliceUser],
          [⟨1, "AQID", "pub", 5, "platform", false, none, none⟩],
          [⟨"s", 1, "login", 1000⟩]⟩)
  ∧ regVerifyPOST devConfig (some "s")
        ⟨⟨base64urlEncode [1, 2, 3], [1, 2, 3], "chal1", "http://localhost:3200",
          "localhost", true, "pub", 5, zeroAaguid, false, none⟩, some "chal1"⟩
        ⟨[aliceUser],
         [⟨1, "AQID", "pub", 5, "platform", false, none, none⟩],
         [⟨"s", 1, "login", 1000⟩]⟩ 0
      = (.invalidChallenge,
         ⟨[aliceUser],
          [⟨1, "AQID", "pub", 5, "platform", false, none, none⟩],
          [⟨"s", 1, "login", 1000⟩]⟩) :=
  ⟨by decide,
   regVerifyReplayRejected devConfig "s"
     ⟨⟨base64urlEncode [1, 2, 3], [1, 2, 3], "chal1", "http://localhost:3200",
       "localhost", true, "pub", 5, zeroAaguid, false, none⟩, some "chal1"⟩
     ⟨[aliceUser], [], [⟨"s", 1, "login", 1000⟩, ⟨"challenge-s", 1, "chal1", 1000⟩]⟩ 0
     true "AQID"
     ⟨[aliceUser],
      [⟨1, "AQID", "pub", 5, "platform", false, none, none⟩],
      [⟨"s", 1, "login", 1000⟩]⟩
     (by decide)⟩

end WebauthnTest
